import Mathlib

/-!
Verification development for the EventFlow client-side data-access
fallback layer: the Local Store (`src/client/src/lib/localApi.ts`) and the
Dispatcher (`src/client/src/lib/queryClient.ts`).

Modelling conventions (shallow embedding):
  * A JavaScript record object is an association list `Obj` from field
    names to `JValue`s in which the FIRST binding of a key is its value;
    consequently the object-spread expression `{ ...a, ...b }` (fields of
    `b` override fields of `a`) is embedded as `b ++ a` (`mergeObj`).
  * `localStorage` holds one blob per collection under the distinct keys
    `eventflow-localapi:{name}`; a `Storage` structure with one `Blob`
    field per collection models exactly these six distinct keys.
  * `JSON.parse` of a stored blob either yields the stored array or
    throws; a `Blob` is therefore `missing` (getItem returned null/empty),
    `malformed raw` (JSON.parse throws) or `stored items`.
  * The external effects `nanoid()` and `new Date()` are passed in as
    explicit parameters `gen : String` and `now : Nat`.
  * A thrown JS exception is an `Except.error`; since every throw in the
    source happens before any `writeCollection` call, an erroring
    operation returns the input storage unchanged.
-/

/-- JSON-style field values as they occur in the six record schemas
(strings, numbers, booleans, `Date` timestamps, null). -/
inductive JValue where
  | str (s : String)
  | num (n : Int)
  | bool (b : Bool)
  | date (t : Nat)
  | null
deriving DecidableEq, Repr

/-- A JavaScript record object: field name to value, first binding wins. -/
abbrev Obj := List (String × JValue)

/-- Field lookup in an object (first binding of the key wins). -/
def lookupObj : Obj → String → Option JValue
  | [], _ => none
  | (k, v) :: rest, key => if k = key then some v else lookupObj rest key

/-- Embedding of the JS object spread `{ ...a, ...b }`: fields of `b`
override fields of `a`, hence `b`'s bindings come first. -/
def mergeObj (a b : Obj) : Obj := b ++ a

/-- State of one collection's slot in `localStorage`, as seen through
`getItem` + `JSON.parse`. -/
inductive Blob where
  | missing
  | malformed (raw : String)
  | stored (items : List Obj)
deriving DecidableEq, Repr

/-- Transcription of `readCollection` (localApi.ts:25-33): a missing blob
yields `[]`, a blob on which `JSON.parse` throws is caught and yields `[]`,
otherwise the parsed array is returned. -/
def readCollection : Blob → List Obj
  | .missing => []
  | .malformed _ => []
  | .stored items => items

/-- Transcription of `writeCollection` (localApi.ts:35-37): serializes the
full item array into the collection's slot. -/
def writeCollection (items : List Obj) : Blob := .stored items

/-- The six `localStorage` slots `eventflow-localapi:{name}`, one per
collection name (localApi.ts:17-23). -/
structure Storage where
  users : Blob
  expenses : Blob
  vendors : Blob
  guests : Blob
  tasks : Blob
  inspirations : Blob
deriving DecidableEq, Repr

/-- Predicate used by `findIndex(x => x.id === id)`: the record's `id`
field is the given string (a missing or non-string `id` compares unequal
under `===`). -/
def idMatches (id : String) (o : Obj) : Bool :=
  decide (lookupObj o "id" = some (JValue.str id))

/-- Embedding of `items.findIndex(x => x.id === id)` followed by
`items[idx] = { ...items[idx], ...data }`: replaces the first record whose
`id` matches, returning the merged record and the updated array, or `none`
when `findIndex` returns `-1`. -/
def updateAt (id : String) (data : Obj) : List Obj → Option (Obj × List Obj)
  | [] => none
  | e :: es =>
    if idMatches id e then
      some (mergeObj e data, mergeObj e data :: es)
    else
      match updateAt id data es with
      | none => none
      | some (m, es') => some (m, e :: es')

/-- Transcription of `localApi.createUser` (localApi.ts:41-51): the object
literal `{ ...data, id: nanoid(), createdAt: new Date() }` is appended and
persisted. -/
def createUser (gen : String) (now : Nat) (data : Obj) (s : Storage) : Obj × Storage :=
  let users := readCollection s.users
  let user := mergeObj data [("id", JValue.str gen), ("createdAt", JValue.date now)]
  (user, { s with users := writeCollection (users ++ [user]) })

/-- Transcription of `localApi.updateUser` (localApi.ts:52-59): throws
"User not found" when `findIndex` misses, otherwise merges, persists and
returns the merged record. -/
def updateUser (id : String) (data : Obj) (s : Storage) : Except String Obj × Storage :=
  match updateAt id data (readCollection s.users) with
  | none => (.error "User not found", s)
  | some (merged, items) => (.ok merged, { s with users := writeCollection items })

/-- Transcription of `localApi.getUser` (localApi.ts:60-65): `find` then
throw "User not found" when absent. -/
def getUser (id : String) (s : Storage) : Except String Obj × Storage :=
  match (readCollection s.users).find? (idMatches id) with
  | none => (.error "User not found", s)
  | some u => (.ok u, s)

/-- Predicate used by the list operations' `filter(x => x.userId === userId)`. -/
def ownerMatches (userId : String) (o : Obj) : Bool :=
  decide (lookupObj o "userId" = some (JValue.str userId))

/-- Transcription of `localApi.listExpenses` (localApi.ts:68-70); the
function performs no write, so the storage component is returned as is. -/
def listExpenses (userId : String) (s : Storage) : List Obj × Storage :=
  ((readCollection s.expenses).filter (ownerMatches userId), s)

/-- Transcription of `localApi.createExpense` (localApi.ts:71-77): object
literal `{ ...data, id: nanoid(), date: new Date() }`, appended, persisted. -/
def createExpense (gen : String) (now : Nat) (data : Obj) (s : Storage) : Obj × Storage :=
  let items := readCollection s.expenses
  let expense := mergeObj data [("id", JValue.str gen), ("date", JValue.date now)]
  (expense, { s with expenses := writeCollection (items ++ [expense]) })

/-- Transcription of `localApi.updateExpense` (localApi.ts:78-85). -/
def updateExpense (id : String) (data : Obj) (s : Storage) : Except String Obj × Storage :=
  match updateAt id data (readCollection s.expenses) with
  | none => (.error "Expense not found", s)
  | some (merged, items) => (.ok merged, { s with expenses := writeCollection items })

/-- Transcription of `localApi.deleteExpense` (localApi.ts:86-89): persists
`items.filter(e => e.id !== id)`; never throws. -/
def deleteExpense (id : String) (s : Storage) : Storage :=
  { s with expenses := writeCollection ((readCollection s.expenses).filter (fun e => !idMatches id e)) }

/-- Transcription of `localApi.listVendors` (localApi.ts:92-94). -/
def listVendors (userId : String) (s : Storage) : List Obj × Storage :=
  ((readCollection s.vendors).filter (ownerMatches userId), s)

/-- Transcription of `localApi.createVendor` (localApi.ts:95-101): object
literal `{ ...data, id: nanoid() }` (no timestamp field for vendors). -/
def createVendor (gen : String) (data : Obj) (s : Storage) : Obj × Storage :=
  let items := readCollection s.vendors
  let vendor := mergeObj data [("id", JValue.str gen)]
  (vendor, { s with vendors := writeCollection (items ++ [vendor]) })

/-- Transcription of `localApi.updateVendor` (localApi.ts:102-109). -/
def updateVendor (id : String) (data : Obj) (s : Storage) : Except String Obj × Storage :=
  match updateAt id data (readCollection s.vendors) with
  | none => (.error "Vendor not found", s)
  | some (merged, items) => (.ok merged, { s with vendors := writeCollection items })

/-- Transcription of `localApi.deleteVendor` (localApi.ts:110-113). -/
def deleteVendor (id : String) (s : Storage) : Storage :=
  { s with vendors := writeCollection ((readCollection s.vendors).filter (fun e => !idMatches id e)) }

/-- Transcription of `localApi.listGuests` (localApi.ts:116-118). -/
def listGuests (userId : String) (s : Storage) : List Obj × Storage :=
  ((readCollection s.guests).filter (ownerMatches userId), s)

/-- Transcription of `localApi.createGuest` (localApi.ts:119-125). -/
def createGuest (gen : String) (data : Obj) (s : Storage) : Obj × Storage :=
  let items := readCollection s.guests
  let guest := mergeObj data [("id", JValue.str gen)]
  (guest, { s with guests := writeCollection (items ++ [guest]) })

/-- Transcription of `localApi.updateGuest` (localApi.ts:126-133). -/
def updateGuest (id : String) (data : Obj) (s : Storage) : Except String Obj × Storage :=
  match updateAt id data (readCollection s.guests) with
  | none => (.error "Guest not found", s)
  | some (merged, items) => (.ok merged, { s with guests := writeCollection items })

/-- Transcription of `localApi.deleteGuest` (localApi.ts:134-137). -/
def deleteGuest (id : String) (s : Storage) : Storage :=
  { s with guests := writeCollection ((readCollection s.guests).filter (fun e => !idMatches id e)) }

/-- Transcription of `localApi.listTasks` (localApi.ts:140-142). -/
def listTasks (userId : String) (s : Storage) : List Obj × Storage :=
  ((readCollection s.tasks).filter (ownerMatches userId), s)

/-- Transcription of `localApi.createTask` (localApi.ts:143-149). -/
def createTask (gen : String) (data : Obj) (s : Storage) : Obj × Storage :=
  let items := readCollection s.tasks
  let task := mergeObj data [("id", JValue.str gen)]
  (task, { s with tasks := writeCollection (items ++ [task]) })

/-- Transcription of `localApi.updateTask` (localApi.ts:150-157). -/
def updateTask (id : String) (data : Obj) (s : Storage) : Except String Obj × Storage :=
  match updateAt id data (readCollection s.tasks) with
  | none => (.error "Task not found", s)
  | some (merged, items) => (.ok merged, { s with tasks := writeCollection items })

/-- Transcription of `localApi.deleteTask` (localApi.ts:158-161). -/
def deleteTask (id : String) (s : Storage) : Storage :=
  { s with tasks := writeCollection ((readCollection s.tasks).filter (fun e => !idMatches id e)) }

/-- Transcription of `localApi.listInspirations` (localApi.ts:164-166). -/
def listInspirations (userId : String) (s : Storage) : List Obj × Storage :=
  ((readCollection s.inspirations).filter (ownerMatches userId), s)

/-- Transcription of `localApi.createInspiration` (localApi.ts:167-173). -/
def createInspiration (gen : String) (data : Obj) (s : Storage) : Obj × Storage :=
  let items := readCollection s.inspirations
  let inspiration := mergeObj data [("id", JValue.str gen)]
  (inspiration, { s with inspirations := writeCollection (items ++ [inspiration]) })

/-- Transcription of `localApi.deleteInspiration` (localApi.ts:174-177). -/
def deleteInspiration (id : String) (s : Storage) : Storage :=
  { s with inspirations := writeCollection ((readCollection s.inspirations).filter (fun e => !idMatches id e)) }

/-- Character-level check that the first list is an initial run of the
second (used to embed `path.startsWith(p)` from the dispatcher routing). -/
def leadChars : List Char → List Char → Bool
  | [], _ => true
  | _ :: _, [] => false
  | a :: as, b :: bs => a = b && leadChars as bs

/-- Embedding of the JS string method `s.startsWith(p)`. -/
def leadsWith (s p : String) : Bool := leadChars p.toList s.toList

/-- Character-level substring search, structural on the searched list. -/
def hasSubChars (pat : List Char) : List Char → Bool
  | [] => pat.isEmpty
  | c :: t => leadChars pat (c :: t) || hasSubChars pat t

/-- Embedding of the JS string method `s.includes(p)`. -/
def strIncludes (s p : String) : Bool := hasSubChars p.toList s.toList

/-- Accumulator worker for `splitSlash`. -/
def splitSlashAux : List Char → List Char → List String
  | [], acc => [String.mk acc.reverse]
  | c :: cs, acc =>
    if c = '/' then String.mk acc.reverse :: splitSlashAux cs []
    else splitSlashAux cs (c :: acc)

/-- Embedding of the JS expression `path.split("/")` (literal separator,
keeps empty segments, always returns at least one element). -/
def splitSlash (p : String) : List String := splitSlashAux p.toList []

/-- Embedding of `path.split("/").pop()` (the list is never empty, so the
default is unreachable). -/
def lastSeg (p : String) : String := (splitSlash p).getLastD ""

/-- Model of a settled `fetch` response: HTTP status, status text, the
`Content-Type` header value, the body as text, and `bodyJson` as the result
of `JSON.parse` on that body (`none` when parsing would throw). -/
structure HttpResponse where
  status : Nat
  statusText : String
  contentType : String
  bodyText : String
  bodyJson : Option JValue
deriving DecidableEq, Repr

/-- The `Response.ok` getter: status in the inclusive range 200-299. -/
def HttpResponse.ok (r : HttpResponse) : Bool :=
  decide (200 ≤ r.status ∧ r.status ≤ 299)

/-- Transcription of `isJsonResponse` (localApi.ts:180-183): the
`Content-Type` header value contains `application/json` (header lookup is
case-insensitive in `fetch`, which the source's double lookup reflects). -/
def isJsonResponse (r : HttpResponse) : Bool :=
  strIncludes r.contentType "application/json"

/-- Transcription of `shouldFallback` (localApi.ts:185-188): any non-2xx
status qualifies, and so does a 2xx response whose content type is not
JSON. -/
def shouldFallback (r : HttpResponse) : Bool :=
  if !r.ok then true else !isJsonResponse r

/-- Message of the error thrown by `throwIfResNotOk`
(queryClient.ts:4-9): `` `${res.status}: ${text}` `` where `text` is the
body text, or the status text when the body is empty. -/
def apiErrMsg (r : HttpResponse) : String :=
  toString r.status ++ ": " ++ (if r.bodyText = "" then r.statusText else r.bodyText)

/-- Possible results of `apiRequest`: the remote response returned as is,
a locally fabricated JSON `Response` holding a record or `{ ok: true }`,
or a thrown error. -/
inductive ApiOutcome where
  | remote (res : HttpResponse)
  | localJson (record : Obj)
  | localOk
  | thrown (msg : String)
deriving DecidableEq, Repr

/-- Transcription of the routing chain inside `apiRequest`'s `try` block
(queryClient.ts:26-108), in source order, first match wins. The result is
`none` when no branch matches, `some (.error e)` when a branch matched but
its Local Store call threw (the exception reaches the enclosing `catch`),
and `some (.ok (out, s'))` when a branch served the request locally. -/
def matchRoute (method path : String) (data : Obj) (gen : String) (now : Nat) (s : Storage) :
    Option (Except String (ApiOutcome × Storage)) :=
  if method = "POST" ∧ path = "/api/users" then
    let r := createUser gen now data s
    some (.ok (.localJson r.1, r.2))
  else if method = "PUT" ∧ leadsWith path "/api/users/" then
    let r := updateUser (lastSeg path) data s
    match r.1 with
    | .error e => some (.error e)
    | .ok u => some (.ok (.localJson u, r.2))
  else if method = "POST" ∧ path = "/api/expenses" then
    let r := createExpense gen now data s
    some (.ok (.localJson r.1, r.2))
  else if method = "PUT" ∧ leadsWith path "/api/expenses/" then
    let r := updateExpense (lastSeg path) data s
    match r.1 with
    | .error e => some (.error e)
    | .ok u => some (.ok (.localJson u, r.2))
  else if method = "DELETE" ∧ leadsWith path "/api/expenses/" then
    some (.ok (.localOk, deleteExpense (lastSeg path) s))
  else if method = "POST" ∧ path = "/api/vendors" then
    let r := createVendor gen data s
    some (.ok (.localJson r.1, r.2))
  else if method = "PUT" ∧ leadsWith path "/api/vendors/" then
    let r := updateVendor (lastSeg path) data s
    match r.1 with
    | .error e => some (.error e)
    | .ok u => some (.ok (.localJson u, r.2))
  else if method = "DELETE" ∧ leadsWith path "/api/vendors/" then
    some (.ok (.localOk, deleteVendor (lastSeg path) s))
  else if method = "POST" ∧ path = "/api/guests" then
    let r := createGuest gen data s
    some (.ok (.localJson r.1, r.2))
  else if method = "PUT" ∧ leadsWith path "/api/guests/" then
    let r := updateGuest (lastSeg path) data s
    match r.1 with
    | .error e => some (.error e)
    | .ok u => some (.ok (.localJson u, r.2))
  else if method = "DELETE" ∧ leadsWith path "/api/guests/" then
    some (.ok (.localOk, deleteGuest (lastSeg path) s))
  else if method = "POST" ∧ path = "/api/tasks" then
    let r := createTask gen data s
    some (.ok (.localJson r.1, r.2))
  else if method = "PUT" ∧ leadsWith path "/api/tasks/" then
    let r := updateTask (lastSeg path) data s
    match r.1 with
    | .error e => some (.error e)
    | .ok u => some (.ok (.localJson u, r.2))
  else if method = "DELETE" ∧ leadsWith path "/api/tasks/" then
    some (.ok (.localOk, deleteTask (lastSeg path) s))
  else if method = "POST" ∧ path = "/api/inspirations" then
    let r := createInspiration gen data s
    some (.ok (.localJson r.1, r.2))
  else if method = "DELETE" ∧ leadsWith path "/api/inspirations/" then
    some (.ok (.localOk, deleteInspiration (lastSeg path) s))
  else none

/-- Transcription of `apiRequest` (queryClient.ts:11-112): a 2xx response
is returned untouched; otherwise the routing chain runs inside
`try ... catch {}`, and when it either throws or matches nothing the
original remote failure is re-thrown by `throwIfResNotOk`. A `fetch` body
of `undefined` spreads to `{}`, hence `data.getD []`. -/
def apiRequest (method path : String) (data : Option Obj) (res : HttpResponse)
    (gen : String) (now : Nat) (s : Storage) : ApiOutcome × Storage :=
  if res.ok then (.remote res, s)
  else
    match matchRoute method path (data.getD []) gen now s with
    | some (.ok out) => out
    | some (.error _) => (.thrown (apiErrMsg res), s)
    | none => (.thrown (apiErrMsg res), s)

/-- Possible results of the query function built by `getQueryFn`: `null`
for a 401 under `returnNull`, the parsed remote body, a rejected
`res.json()` parse, a Local Store list, or a thrown error. -/
inductive QueryOutcome where
  | nullResult
  | remoteBody (v : JValue)
  | parseError
  | localList (items : List Obj)
  | thrown (msg : String)
deriving DecidableEq, Repr

/-- Transcription of the list-fallback block of `getQueryFn`
(queryClient.ts:132-145): split the endpoint path on `/`, drop falsy
(empty) segments, and require `api`, `users`, an owner id and a resource
segment; unknown resources fall through to `none`. -/
def listRoute (endpoint : String) (s : Storage) : Option (List Obj) :=
  match (splitSlash endpoint).filter (fun p => decide (p ≠ "")) with
  | "api" :: "users" :: userId :: resource :: _ =>
    if resource = "expenses" then some (listExpenses userId s).1
    else if resource = "vendors" then some (listVendors userId s).1
    else if resource = "guests" then some (listGuests userId s).1
    else if resource = "tasks" then some (listTasks userId s).1
    else if resource = "inspirations" then some (listInspirations userId s).1
    else none
  | _ => none

/-- Transcription of the query function returned by `getQueryFn`
(queryClient.ts:115-149): `null` on 401 under `returnNull`; on a 2xx
response, `res.json()` of the remote body regardless of content type; on a
non-2xx response, the list fallback when the path matches, otherwise the
error thrown by `throwIfResNotOk`. -/
def getQueryFnRun (returnNullOn401 : Bool) (endpoint : String) (res : HttpResponse)
    (s : Storage) : QueryOutcome :=
  if returnNullOn401 ∧ res.status = 401 then .nullResult
  else if res.ok then
    match res.bodyJson with
    | some v => .remoteBody v
    | none => .parseError
  else
    match listRoute endpoint s with
    | some items => .localList items
    | none => .thrown (apiErrMsg res)

/-- Sample expense record used by concrete instantiations. -/
def exRecord : Obj := [("id", JValue.str "e1"), ("userId", JValue.str "u1"), ("name", JValue.str "cake")]

/-- Sample task record used by concrete instantiations. -/
def exTask : Obj := [("id", JValue.str "t1"), ("userId", JValue.str "u1"), ("description", JValue.str "book venue")]

/-- Sample storage: one expense and one task owned by `u1`, all other
collections missing. -/
def exStore : Storage :=
  { users := Blob.missing
    expenses := Blob.stored [exRecord]
    vendors := Blob.missing
    guests := Blob.missing
    tasks := Blob.stored [exTask]
    inspirations := Blob.missing }

/-- Sample remote failure: HTTP 503 with an empty body. -/
def res503 : HttpResponse :=
  { status := 503, statusText := "Service Unavailable", contentType := "text/html"
    bodyText := "", bodyJson := none }

/-- Sample remote failure: HTTP 500 with a plain-text body. -/
def res500 : HttpResponse :=
  { status := 500, statusText := "Internal Server Error", contentType := "text/plain"
    bodyText := "boom", bodyJson := none }

/-- Sample misrouted success: HTTP 200 whose body is an HTML page, on
which `JSON.parse` throws. -/
def resHtml200 : HttpResponse :=
  { status := 200, statusText := "OK", contentType := "text/html"
    bodyText := "<html>fallback page</html>", bodyJson := none }

theorem readCollection_stored (l : List Obj) : readCollection (Blob.stored l) = l := rfl

theorem lookupObj_merge_supplied (e data : Obj) (k : String) (v : JValue)
    (h : lookupObj data k = some v) : lookupObj (mergeObj e data) k = some v := by
  induction data with
  | nil => simp [lookupObj] at h
  | cons kv rest ih =>
    obtain ⟨k', v'⟩ := kv
    simp only [mergeObj, List.cons_append, lookupObj] at h ⊢
    by_cases hk : k' = k
    · simpa [hk] using h
    · simp only [hk, if_false] at h ⊢
      exact ih h

theorem lookupObj_merge_absent (e data : Obj) (k : String)
    (h : lookupObj data k = none) : lookupObj (mergeObj e data) k = lookupObj e k := by
  induction data with
  | nil => rfl
  | cons kv rest ih =>
    obtain ⟨k', v'⟩ := kv
    simp only [lookupObj] at h
    by_cases hk : k' = k
    · simp [hk] at h
    · simp only [mergeObj, List.cons_append, lookupObj, hk, if_false] at ih ⊢
      exact ih (by simpa [hk] using h)

theorem updateAt_found (id : String) (data : Obj) (pre : List Obj) (e : Obj) (post : List Obj)
    (hpre : ∀ x ∈ pre, idMatches id x = false) (he : idMatches id e = true) :
    updateAt id data (pre ++ e :: post) = some (mergeObj e data, pre ++ mergeObj e data :: post) := by
  induction pre with
  | nil => simp [updateAt, he]
  | cons p ps ih =>
    have hp : idMatches id p = false := hpre p (by simp)
    have ih' := ih (fun x hx => hpre x (by simp [hx]))
    simp [updateAt, hp, ih']

theorem updateAt_none (id : String) (data : Obj) (items : List Obj)
    (h : ∀ x ∈ items, idMatches id x = false) : updateAt id data items = none := by
  induction items with
  | nil => rfl
  | cons p ps ih =>
    have hp : idMatches id p = false := h p (by simp)
    have ih' := ih (fun x hx => h x (by simp [hx]))
    simp [updateAt, hp, ih']

/-- C7: a stored blob that is missing or fails to parse reads as the empty
collection and raises no error to the caller, and every Local Store
operation on such a collection behaves exactly as on an empty stored
collection. -/
theorem malformed_blob_reads_empty (raw uid id gen : String) (now : Nat) (data : Obj) (s : Storage) :
    readCollection Blob.missing = [] ∧
    readCollection (Blob.malformed raw) = [] ∧
    (listExpenses uid { s with expenses := Blob.malformed raw }).1
      = (listExpenses uid { s with expenses := Blob.stored [] }).1 ∧
    (listExpenses uid { s with expenses := Blob.missing }).1
      = (listExpenses uid { s with expenses := Blob.stored [] }).1 ∧
    createExpense gen now data { s with expenses := Blob.malformed raw }
      = createExpense gen now data { s with expenses := Blob.stored [] } ∧
    (updateExpense id data { s with expenses := Blob.malformed raw }).1
      = (updateExpense id data { s with expenses := Blob.stored [] }).1 ∧
    deleteExpense id { s with expenses := Blob.malformed raw }
      = deleteExpense id { s with expenses := Blob.stored [] } ∧
    createUser gen now data { s with users := Blob.malformed raw }
      = createUser gen now data { s with users := Blob.stored [] } ∧
    (updateUser id data { s with users := Blob.malformed raw }).1
      = (updateUser id data { s with users := Blob.stored [] }).1 ∧
    (getUser id { s with users := Blob.malformed raw }).1
      = (getUser id { s with users := Blob.stored [] }).1 ∧
    (listVendors uid { s with vendors := Blob.malformed raw }).1
      = (listVendors uid { s with vendors := Blob.stored [] }).1 ∧
    (listGuests uid { s with guests := Blob.malformed raw }).1
      = (listGuests uid { s with guests := Blob.stored [] }).1 ∧
    (listTasks uid { s with tasks := Blob.malformed raw }).1
      = (listTasks uid { s with tasks := Blob.stored [] }).1 ∧
    (listInspirations uid { s with inspirations := Blob.malformed raw }).1
      = (listInspirations uid { s with inspirations := Blob.stored [] }).1 :=
  ⟨rfl, rfl, rfl, rfl, rfl, rfl, rfl, rfl, rfl, rfl, rfl, rfl, rfl, rfl⟩

/-- C9: listByOwner returns exactly the records of the collection whose
owner reference equals the given owner id — every such record included,
every other excluded — in the collection's storage order, and performing a
list mutates nothing (shown for expenses and guests). -/
theorem listByOwner_exact (uid : String) (s : Storage) :
    (∀ e, e ∈ (listExpenses uid s).1 ↔
      e ∈ readCollection s.expenses ∧ lookupObj e "userId" = some (JValue.str uid)) ∧
    (listExpenses uid s).1.Sublist (readCollection s.expenses) ∧
    (listExpenses uid s).2 = s ∧
    (∀ e, e ∈ (listGuests uid s).1 ↔
      e ∈ readCollection s.guests ∧ lookupObj e "userId" = some (JValue.str uid)) ∧
    (listGuests uid s).1.Sublist (readCollection s.guests) ∧
    (listGuests uid s).2 = s := by
  refine ⟨fun e => ?_, List.filter_sublist _, rfl, fun e => ?_, List.filter_sublist _, rfl⟩ <;>
    simp [listExpenses, listGuests, List.mem_filter, ownerMatches]

/-- C8: after delete(id), a listByOwner for any owner contains no record
whose id field is that id, and a second delete of the same id is not an
error — it is a no-op on the storage (idempotence). -/
theorem delete_then_list_excludes (id uid : String) (s : Storage) :
    ((listExpenses uid (deleteExpense id s)).1.all fun e => !idMatches id e) = true ∧
    deleteExpense id (deleteExpense id s) = deleteExpense id s := by
  constructor
  · simp only [List.all_eq_true, listExpenses, deleteExpense, readCollection, writeCollection,
      List.mem_filter]
    intro e he
    exact he.1.2
  · simp [deleteExpense, readCollection, writeCollection, List.filter_filter, Bool.and_self]

/-- C3: update against an id absent from the collection fails with the
Not-Found error and leaves the whole storage exactly as it was (no record
inserted or modified); the profile get-by-id signals Not-Found the same
way. -/
theorem update_absent_not_found (id : String) (data : Obj) (s : Storage)
    (hex : ∀ x ∈ readCollection s.expenses, idMatches id x = false)
    (hus : ∀ x ∈ readCollection s.users, idMatches id x = false) :
    updateExpense id data s = (Except.error "Expense not found", s) ∧
    getUser id s = (Except.error "User not found", s) := by
  constructor
  · simp [updateExpense, updateAt_none id data _ hex]
  · have hfind : (readCollection s.users).find? (idMatches id) = none :=
      List.find?_eq_none.mpr (fun x hx => by simp [hus x hx])
    simp [getUser, hfind]

/-- Witness for `update_absent_not_found` at a concrete storage whose
collections hold no record with id `zzz`. -/
theorem update_absent_not_found_witness :
    (∀ x ∈ readCollection exStore.expenses, idMatches "zzz" x = false) ∧
    (∀ x ∈ readCollection exStore.users, idMatches "zzz" x = false) ∧
    updateExpense "zzz" [("name", JValue.str "x")] exStore = (Except.error "Expense not found", exStore) ∧
    getUser "zzz" exStore = (Except.error "User not found", exStore) := by
  have h := update_absent_not_found "zzz" [("name", JValue.str "x")] exStore (by decide) (by decide)
  exact ⟨by decide, by decide, h.1, h.2⟩

/-- C5: when update(id, partial) finds a record, every field supplied in
the partial appears in the returned and stored merged record with exactly
the supplied value, and every field not supplied keeps its prior value
(shown for expenses and tasks). -/
theorem update_merge_field_semantics :
    (∀ (id : String) (data : Obj) (s : Storage) (pre : List Obj) (e : Obj) (post : List Obj),
      (∀ x ∈ pre, idMatches id x = false) → idMatches id e = true →
      s.expenses = Blob.stored (pre ++ e :: post) →
      (updateExpense id data s).1 = Except.ok (mergeObj e data) ∧
      (updateExpense id data s).2.expenses = Blob.stored (pre ++ mergeObj e data :: post) ∧
      (∀ k v, lookupObj data k = some v → lookupObj (mergeObj e data) k = some v) ∧
      (∀ k, lookupObj data k = none → lookupObj (mergeObj e data) k = lookupObj e k)) ∧
    (∀ (id : String) (data : Obj) (s : Storage) (pre : List Obj) (e : Obj) (post : List Obj),
      (∀ x ∈ pre, idMatches id x = false) → idMatches id e = true →
      s.tasks = Blob.stored (pre ++ e :: post) →
      (updateTask id data s).1 = Except.ok (mergeObj e data) ∧
      (updateTask id data s).2.tasks = Blob.stored (pre ++ mergeObj e data :: post) ∧
      (∀ k v, lookupObj data k = some v → lookupObj (mergeObj e data) k = some v) ∧
      (∀ k, lookupObj data k = none → lookupObj (mergeObj e data) k = lookupObj e k)) := by
  constructor
  · intro id data s pre e post hpre he hs
    refine ⟨?_, ?_, fun k v h => lookupObj_merge_supplied e data k v h,
        fun k h => lookupObj_merge_absent e data k h⟩ <;>
      simp [updateExpense, hs, readCollection, writeCollection,
        updateAt_found id data pre e post hpre he]
  · intro id data s pre e post hpre he hs
    refine ⟨?_, ?_, fun k v h => lookupObj_merge_supplied e data k v h,
        fun k h => lookupObj_merge_absent e data k h⟩ <;>
      simp [updateTask, hs, readCollection, writeCollection,
        updateAt_found id data pre e post hpre he]

/-- Witness for `update_merge_field_semantics` on the sample storage. -/
theorem update_merge_field_semantics_witness :
    (∀ x ∈ ([] : List Obj), idMatches "e1" x = false) ∧
    idMatches "e1" exRecord = true ∧
    exStore.expenses = Blob.stored ([] ++ exRecord :: []) ∧
    (updateExpense "e1" [("name", JValue.str "flowers")] exStore).1
      = Except.ok (mergeObj exRecord [("name", JValue.str "flowers")]) ∧
    idMatches "t1" exTask = true ∧
    exStore.tasks = Blob.stored ([] ++ exTask :: []) ∧
    (updateTask "t1" [("completed", JValue.bool true)] exStore).1
      = Except.ok (mergeObj exTask [("completed", JValue.bool true)]) := by
  have h1 := update_merge_field_semantics.1 "e1" [("name", JValue.str "flowers")] exStore
    [] exRecord [] (by decide) (by decide) (by decide)
  have h2 := update_merge_field_semantics.2 "t1" [("completed", JValue.bool true)] exStore
    [] exTask [] (by decide) (by decide) (by decide)
  exact ⟨by decide, by decide, by decide, h1.1, by decide, by decide, h2.1⟩

/-- Counterexample to C2 as stated: updating expense `e1` with a partial
that itself contains a `userId` field replaces the stored owner reference
`u1` by the supplied `u2` in the returned (and persisted) record. -/
theorem update_overwrites_supplied_owner :
    lookupObj exRecord "userId" = some (JValue.str "u1") ∧
    (updateExpense "e1" [("userId", JValue.str "u2")] exStore).1
      = Except.ok [("userId", JValue.str "u2"), ("id", JValue.str "e1"),
          ("userId", JValue.str "u1"), ("name", JValue.str "cake")] ∧
    ((updateExpense "e1" [("userId", JValue.str "u2")] exStore).1.toOption.bind
        fun r => lookupObj r "userId") = some (JValue.str "u2") :=
  ⟨rfl, rfl, rfl⟩

/-- C2 amended: when update(id, partial) finds a record and the partial
does not itself supply an `id` or owner-reference (`userId`) field, the
identifier and owner reference of the merged record equal those of the
prior record; a supplied `id` or `userId` instead replaces the prior value
(the shallow merge protects no field). -/
theorem update_preserves_id_owner_when_not_supplied
    (id : String) (data : Obj) (s : Storage) (pre : List Obj) (e : Obj) (post : List Obj)
    (hpre : ∀ x ∈ pre, idMatches id x = false) (he : idMatches id e = true)
    (hs : s.expenses = Blob.stored (pre ++ e :: post))
    (hid : lookupObj data "id" = none) (howner : lookupObj data "userId" = none) :
    (updateExpense id data s).1 = Except.ok (mergeObj e data) ∧
    (updateExpense id data s).2.expenses = Blob.stored (pre ++ mergeObj e data :: post) ∧
    lookupObj (mergeObj e data) "id" = lookupObj e "id" ∧
    lookupObj (mergeObj e data) "userId" = lookupObj e "userId" := by
  refine ⟨?_, ?_, lookupObj_merge_absent e data "id" hid,
      lookupObj_merge_absent e data "userId" howner⟩ <;>
    simp [updateExpense, hs, readCollection, writeCollection,
      updateAt_found id data pre e post hpre he]

/-- Witness for `update_preserves_id_owner_when_not_supplied` on the
sample storage with a partial supplying only `name`. -/
theorem update_preserves_id_owner_witness :
    (∀ x ∈ ([] : List Obj), idMatches "e1" x = false) ∧
    idMatches "e1" exRecord = true ∧
    exStore.expenses = Blob.stored ([] ++ exRecord :: []) ∧
    lookupObj [("name", JValue.str "pie")] "id" = none ∧
    lookupObj [("name", JValue.str "pie")] "userId" = none ∧
    lookupObj (mergeObj exRecord [("name", JValue.str "pie")]) "id" = lookupObj exRecord "id" ∧
    lookupObj (mergeObj exRecord [("name", JValue.str "pie")]) "userId" = lookupObj exRecord "userId" := by
  have h := update_preserves_id_owner_when_not_supplied "e1" [("name", JValue.str "pie")] exStore
    [] exRecord [] (by decide) (by decide) (by decide) (by decide) (by decide)
  exact ⟨by decide, by decide, by decide, by decide, by decide, h.2.2.1, h.2.2.2⟩

/-- C6: insert always succeeds, returns the record extended with the
freshly generated identifier and the store-assigned timestamp the entity
kind requires (creation time for profile, record time for expense),
appends it to the persisted collection, the generated id is unique in the
collection whenever the generator output is fresh, a subsequent
listByOwner for the record's owner includes it, and a POST answered with
HTTP 503 is served by this insert path through the dispatcher. -/
theorem insert_generates_and_appends :
    (∀ (gen : String) (now : Nat) (data : Obj) (s : Storage),
      (createUser gen now data s).1
        = mergeObj data [("id", JValue.str gen), ("createdAt", JValue.date now)] ∧
      lookupObj (createUser gen now data s).1 "id" = some (JValue.str gen) ∧
      lookupObj (createUser gen now data s).1 "createdAt" = some (JValue.date now) ∧
      (createUser gen now data s).2.users
        = Blob.stored (readCollection s.users ++ [(createUser gen now data s).1])) ∧
    (∀ (gen uid : String) (now : Nat) (data : Obj) (s : Storage),
      (∀ x ∈ readCollection s.expenses, idMatches gen x = false) →
      lookupObj data "userId" = some (JValue.str uid) →
      lookupObj (createExpense gen now data s).1 "id" = some (JValue.str gen) ∧
      lookupObj (createExpense gen now data s).1 "date" = some (JValue.date now) ∧
      (createExpense gen now data s).2.expenses
        = Blob.stored (readCollection s.expenses ++ [(createExpense gen now data s).1]) ∧
      ((readCollection (createExpense gen now data s).2.expenses).filter (idMatches gen)).length = 1 ∧
      (createExpense gen now data s).1 ∈ (listExpenses uid (createExpense gen now data s).2).1) ∧
    (∀ (gen : String) (now : Nat) (data : Obj) (s : Storage) (res : HttpResponse),
      res.status = 503 →
      apiRequest "POST" "/api/expenses" (some data) res gen now s
        = (ApiOutcome.localJson (createExpense gen now data s).1,
           (createExpense gen now data s).2)) := by
  refine ⟨fun gen now data s => ⟨rfl, rfl, rfl, rfl⟩, ?_, ?_⟩
  · intro gen uid now data s hfresh howner
    have hide : idMatches gen (mergeObj data [("id", JValue.str gen), ("date", JValue.date now)]) = true := by
      simp [idMatches, mergeObj, lookupObj]
    have hown : ownerMatches uid (mergeObj data [("id", JValue.str gen), ("date", JValue.date now)]) = true := by
      simp [ownerMatches, mergeObj, lookupObj, howner]
    have hfe : (readCollection s.expenses).filter (idMatches gen) = [] :=
      List.filter_eq_nil_iff.mpr (fun a ha => by simp [hfresh a ha])
    refine ⟨rfl, rfl, rfl, ?_, ?_⟩
    · simp [createExpense, writeCollection, readCollection_stored, List.filter_append, hfe, hide]
    · simp only [listExpenses, createExpense, writeCollection, readCollection_stored,
        List.mem_filter]
      exact ⟨by simp, hown⟩
  · intro gen now data s res h503
    have hok : res.ok = false := by
      simp [HttpResponse.ok, h503]
    have hroute : matchRoute "POST" "/api/expenses" data gen now s
        = some (Except.ok (ApiOutcome.localJson (createExpense gen now data s).1,
            (createExpense gen now data s).2)) := rfl
    simp [apiRequest, hok, hroute]

/-- Witness for `insert_generates_and_appends` on the sample storage with
a concrete generated id, timestamp and a 503 remote response. -/
theorem insert_generates_and_appends_witness :
    (∀ x ∈ readCollection exStore.expenses, idMatches "g9" x = false) ∧
    lookupObj [("userId", JValue.str "u1"), ("name", JValue.str "dj")] "userId"
      = some (JValue.str "u1") ∧
    res503.status = 503 ∧
    lookupObj (createUser "g7" 4 [("name", JValue.str "ana")] exStore).1 "createdAt"
      = some (JValue.date 4) ∧
    lookupObj (createExpense "g9" 5 [("userId", JValue.str "u1"), ("name", JValue.str "dj")] exStore).1 "id"
      = some (JValue.str "g9") ∧
    (createExpense "g9" 5 [("userId", JValue.str "u1"), ("name", JValue.str "dj")] exStore).1
      ∈ (listExpenses "u1"
          (createExpense "g9" 5 [("userId", JValue.str "u1"), ("name", JValue.str "dj")] exStore).2).1 ∧
    apiRequest "POST" "/api/expenses" (some [("userId", JValue.str "u1"), ("name", JValue.str "dj")])
        res503 "g9" 5 exStore
      = (ApiOutcome.localJson
          (createExpense "g9" 5 [("userId", JValue.str "u1"), ("name", JValue.str "dj")] exStore).1,
         (createExpense "g9" 5 [("userId", JValue.str "u1"), ("name", JValue.str "dj")] exStore).2) := by
  have h1 := insert_generates_and_appends.1 "g7" 4 [("name", JValue.str "ana")] exStore
  have h2 := insert_generates_and_appends.2.1 "g9" "u1" 5
    [("userId", JValue.str "u1"), ("name", JValue.str "dj")] exStore (by decide) (by decide)
  have h3 := insert_generates_and_appends.2.2 "g9" 5
    [("userId", JValue.str "u1"), ("name", JValue.str "dj")] exStore res503 (by decide)
  exact ⟨by decide, by decide, by decide, h1.2.2.1, h2.1, h2.2.2.2.2, h3⟩

/-- C4: a fallback-qualifying remote failure whose method and path match
no entry of the routing chain is re-surfaced as the error derived from the
original remote response, with the storage untouched; the dispatcher never
reports success there. -/
theorem unmatched_route_propagates (method path : String) (data : Option Obj)
    (res : HttpResponse) (gen : String) (now : Nat) (s : Storage)
    (hok : res.ok = false)
    (hnone : matchRoute method path (data.getD []) gen now s = none) :
    apiRequest method path data res gen now s = (ApiOutcome.thrown (apiErrMsg res), s) := by
  simp [apiRequest, hok, hnone]

/-- Witness for `unmatched_route_propagates`: a DELETE on an unmapped
resource with a failed remote call re-surfaces `500: boom`. -/
theorem unmatched_route_propagates_witness :
    res500.ok = false ∧
    matchRoute "DELETE" "/some-unmapped-resource/x" [] "g" 0 exStore = none ∧
    apiRequest "DELETE" "/some-unmapped-resource/x" none res500 "g" 0 exStore
      = (ApiOutcome.thrown "500: boom", exStore) := by
  refine ⟨by decide, rfl, ?_⟩
  exact unmatched_route_propagates "DELETE" "/some-unmapped-resource/x" none res500 "g" 0
    exStore (by decide) rfl

/-- C10: when a fallback route matches but the Local Store operation it
invokes throws, the dispatcher catches and discards the local error and
instead throws the error derived from the original remote response's
status and body; the local error never reaches the caller. -/
theorem local_error_discarded (method path : String) (data : Option Obj)
    (res : HttpResponse) (gen : String) (now : Nat) (s : Storage) (e : String)
    (hok : res.ok = false)
    (herr : matchRoute method path (data.getD []) gen now s = some (Except.error e)) :
    apiRequest method path data res gen now s = (ApiOutcome.thrown (apiErrMsg res), s) := by
  simp [apiRequest, hok, herr]

/-- Witness for `local_error_discarded`: a PUT against an absent expense
id makes the Local Store throw `Expense not found`, yet the dispatcher
throws `500: boom` derived from the remote response. -/
theorem local_error_discarded_witness :
    res500.ok = false ∧
    matchRoute "PUT" "/api/expenses/zzz" [("name", JValue.str "x")] "g" 0 exStore
      = some (Except.error "Expense not found") ∧
    apiRequest "PUT" "/api/expenses/zzz" (some [("name", JValue.str "x")]) res500 "g" 0 exStore
      = (ApiOutcome.thrown "500: boom", exStore) := by
  refine ⟨by decide, rfl, ?_⟩
  exact local_error_discarded "PUT" "/api/expenses/zzz" (some [("name", JValue.str "x")])
    res500 "g" 0 exStore "Expense not found" (by decide) rfl

/-- C1 evaluated on the code: an HTTP 200 response carrying an HTML body
is classified as fallback-qualifying by the repository's own
`shouldFallback` helper, yet the query dispatcher, which consults only
`res.ok`, attempts `res.json()` on the HTML body (a parse rejection) and
does not serve the Local Store's listByOwner result. -/
theorem contentType_guard_not_consulted :
    shouldFallback resHtml200 = true ∧
    isJsonResponse resHtml200 = false ∧
    getQueryFnRun false "/api/users/u1/expenses" resHtml200 exStore = QueryOutcome.parseError ∧
    (listExpenses "u1" exStore).1 = [exRecord] ∧
    getQueryFnRun false "/api/users/u1/expenses" resHtml200 exStore
      ≠ QueryOutcome.localList (listExpenses "u1" exStore).1 := by
  exact ⟨by decide, by decide, by decide, by decide, by decide⟩
